import Mathlib

/-
Verification development for the lit-review-search citation-network builder.

The definitions below are shallow embeddings of the Python sources:
  - citation_filtering.py : strong co-citing / co-cited / related-id computation
  - run.py                : multi-source publication resolution engine
  - crossref_publication.py : filter_citations (year-range filter)
  - scopus_publication.py / publication.py : constructor and cache-path logic

Machine integers are modelled as Nat/Int; the Python float parameter
-- shared -- is modelled as a rational number; fallible operations return
Except; Python dicts whose insertion order matters are modelled as
association lists.
-/

/-- Python exception classes that the modelled code can raise. -/
inductive PyErr where
  | typeError
  | valueError
  | attributeError
  | requestError
  | otherError
deriving DecidableEq, Repr

/-- One citation edge as stored in the references_ / citations_ lists:
a dict with keys eid, title and (for citation entries) year.
Missing year is None. -/
structure CitationEdge where
  eid : String
  title : Option String
  year : Option Int
deriving DecidableEq, Repr

/-- The loaded state of a publication record as consumed by
citation_filtering.py and filter_citations.  reference_count and
citation_count model the observed values of the lazy count properties
(len of the loaded lists in the source); co_citing_counts and
co_cited_counts model the tally dicts (unique keys, insertion ordered). -/
structure Publication where
  eid : String
  references_ : List CitationEdge
  citations_ : List CitationEdge
  reference_count : Nat
  citation_count : Nat
  co_citing_counts : List (String × Nat)
  co_cited_counts : List (String × Nat)
deriving DecidableEq, Repr

/-- math.ceil(count * shared) as computed in get_strong_co_citing and
get_strong_co_cited. -/
def min_count_for (count : Nat) (shared : ℚ) : ℤ :=
  Int.ceil ((count : ℚ) * shared)

/-- get_strong_co_citing from citation_filtering.py: every key of
co_citing_counts whose tally is at least ceil(reference_count * shared),
in dict iteration order. -/
def get_strong_co_citing (publication : Publication) (shared : ℚ) : List String :=
  let min_count := min_count_for publication.reference_count shared
  (publication.co_citing_counts.filter (fun kv => decide (min_count ≤ (kv.2 : ℤ)))).map Prod.fst

/-- get_strong_co_cited from citation_filtering.py: every key of
co_cited_counts whose tally is at least ceil(citation_count * shared). -/
def get_strong_co_cited (publication : Publication) (shared : ℚ) : List String :=
  let min_count := min_count_for publication.citation_count shared
  (publication.co_cited_counts.filter (fun kv => decide (min_count ≤ (kv.2 : ℤ)))).map Prod.fst

/-- get_strong_citation_relationship from citation_filtering.py: the set of
direct reference eids, direct citation eids, strong co-citing keys and
strong co-cited keys.  The optional store/overwrite file output is disk
I/O and is not part of the returned set. -/
def get_strong_citation_relationship (publication : Publication) (shared : ℚ) : Finset String :=
  let direct := (publication.references_.map CitationEdge.eid).toFinset ∪
    (publication.citations_.map CitationEdge.eid).toFinset
  let with_co_citing := direct ∪ (get_strong_co_citing publication shared).toFinset
  with_co_citing ∪ (get_strong_co_cited publication shared).toFinset

/-- The per-citation keep test of CrossRefPublication.filter_citations:
drop when year is None, drop when below min_year (if given), drop when
above max_year (if given). -/
def keep_citation (min_year max_year : Option Int) (citation : CitationEdge) : Bool :=
  match citation.year with
  | none => false
  | some y =>
    (match min_year with
     | some m => decide (m ≤ y)
     | none => true) &&
    (match max_year with
     | some mx => decide (y ≤ mx)
     | none => true)

/-- CrossRefPublication.filter_citations: replaces the citations_ list with
the filtered list (destructive in the source; modelled as state passing). -/
def filter_citations (publication : Publication) (min_year max_year : Option Int) : Publication :=
  { publication with citations_ := publication.citations_.filter (keep_citation min_year max_year) }

/-- The record of the C3 worked example: 25 references, a co-citing tally of 3
for key a and 2 for key b. -/
def pub_c3 : Publication :=
  { eid := "e3", references_ := [], citations_ := [], reference_count := 25,
    citation_count := 0, co_citing_counts := [("a", 3), ("b", 2)], co_cited_counts := [] }

theorem min_count_for_25_tenth : min_count_for 25 (1/10) = 3 := by
  unfold min_count_for
  rw [show ((25:ℕ):ℚ) * (1/10) = 5/2 by norm_num]
  rw [Int.ceil_eq_iff]
  norm_num

theorem get_strong_co_citing_pub_c3 : get_strong_co_citing pub_c3 (1/10) = ["a"] := by
  have h : min_count_for pub_c3.reference_count (1/10) = 3 := min_count_for_25_tenth
  simp only [get_strong_co_citing, h]
  decide

/-- The resolved-record state seen by run.py: identifiers, the metadata
mapping, and the observed outcome of the lazy reference_count and
citation_count properties.  counts = none models the case in which
accessing either count raises (failed lazy fetch); counts = some (r, c)
carries (reference_count, citation_count). -/
structure PubRecord where
  doi : Option String
  eid : Option String
  title : Option String
  dblp_key : Option String
  is_dblp : Bool
  metadata : List (String × String)
  counts : Option (Nat × Nat)
deriving DecidableEq, Repr

/-- Python truthiness of an optional string: None and the empty string are
falsy. -/
def truthy : Option String → Bool
  | none => false
  | some s => !s.isEmpty

/-- has_citations from run.py: reads reference_count then citation_count
inside a try block and answers cite_count > 0 or ref_count > 0; any
exception during the reads is caught and the function answers False.
The metadata mapping is never consulted. -/
def has_citations (pub : PubRecord) : Bool :=
  match pub.counts with
  | some rc => decide (0 < rc.2) || decide (0 < rc.1)
  | none => false

/-- The validity predicate exactly as the specification words it: the record
exposes non-empty metadata AND (citation_count > 0 OR reference_count > 0).
Spec-side definition, kept separate for comparison with has_citations. -/
def spec_usable (pub : PubRecord) : Prop :=
  pub.metadata ≠ [] ∧ ∃ r c, pub.counts = some (r, c) ∧ (0 < c ∨ 0 < r)

/-- The external adapter operations run.py invokes, as an abstract
environment.  Constructors may raise (Except.error); the two raw search
operations stand for the network-and-parse bodies of
DBLPPublication.search_by_title and ScopusPublication.search_by_title,
whose own try blocks are modelled below. -/
structure AdapterEnv where
  crossref_new : String → Except PyErr PubRecord
  scopus_new : String → Except PyErr PubRecord
  dblp_new : String → Except PyErr PubRecord
  dblp_search_raw : String → Nat → Except PyErr (List PubRecord)
  scopus_search_raw : String → Except PyErr (Option PubRecord)

/-- DBLPPublication.search_by_title: its whole body sits in a try block
whose except clause returns the empty list. -/
def dblp_search_by_title (env : AdapterEnv) (title : String) (max_results : Nat) :
    List PubRecord :=
  match env.dblp_search_raw title max_results with
  | .ok results => results
  | .error _ => []

/-- ScopusPublication.search_by_title: its whole body sits in a try block
whose except clause returns None. -/
def scopus_search_by_title (env : AdapterEnv) (title : String) : Option PubRecord :=
  match env.scopus_search_raw title with
  | .ok result => result
  | .error _ => none

/-- find_publication_by_doi from run.py with the constructor invoked as a
successfully bound call: empty DOI answers None; the CrossRefPublication
constructor call is wrapped in try, an exception is caught and None is
answered.  The argument binding of the as-shipped call site (which passes
only one of the two required arguments) is modelled separately in
find_publication_by_doi_run below; this definition carries the loop and
validity logic that the binding failure leaves unreachable. -/
def find_publication_by_doi (env : AdapterEnv) (doi : String) : Option PubRecord :=
  if doi.isEmpty then none
  else
    match env.crossref_new doi with
    | .ok pub => some pub
    | .error _ => none

/-- find_publication_by_eid from run.py with the constructor invoked as a
successfully bound call: same shape over the ScopusPublication
constructor; the as-shipped binding lives in find_publication_by_eid_run. -/
def find_publication_by_eid (env : AdapterEnv) (eid : String) : Option PubRecord :=
  if eid.isEmpty then none
  else
    match env.scopus_new eid with
    | .ok pub => some pub
    | .error _ => none

/-- find_publication_by_dblp from run.py with the constructor invoked as a
successfully bound call: same shape over the DBLPPublication constructor;
the as-shipped binding lives in find_publication_by_dblp_run. -/
def find_publication_by_dblp (env : AdapterEnv) (dblp_key : String) : Option PubRecord :=
  if dblp_key.isEmpty then none
  else
    match env.dblp_new dblp_key with
    | .ok pub => some pub
    | .error _ => none

/-- find_publication_by_title from run.py with the two search calls invoked
as successfully bound calls: a DBLP title search whose first hit is
returned without a validity check; otherwise a Scopus title search whose
hit is returned only when has_citations accepts it.  The as-shipped call
sites omit the searches' required data_folder argument, which raises in
this frame (it has no try); that binding is modelled separately in
find_publication_by_title_run below. -/
def find_publication_by_title (env : AdapterEnv) (title : String) : Option PubRecord :=
  if title.isEmpty then none
  else
    match dblp_search_by_title env title 1 with
    | pub_dblp :: _ => some pub_dblp
    | [] =>
      match scopus_search_by_title env title with
      | some pub_scopus => if has_citations pub_scopus then some pub_scopus else none
      | none => none

/-- The four local identifier variables of create_publication (doi, eid,
title, dblp) that the harvesting branch mutates. -/
structure SeedIds where
  doi : String
  eid : String
  title : String
  dblp : Option String
deriving DecidableEq, Repr

/-- The identifier harvesting of create_publication: when a strategy finds a
record that fails has_citations, each still-falsy local identifier is
filled from the record (doi, then title, then dblp for DBLP records, then
eid).  Each branch writes a distinct variable, so the sequential updates
equal this simultaneous record update. -/
def harvest_ids (pub : PubRecord) (s : SeedIds) : SeedIds :=
  { doi := if s.doi.isEmpty && truthy pub.doi then pub.doi.getD "" else s.doi,
    title := if s.title.isEmpty && truthy pub.title then pub.title.getD "" else s.title,
    dblp := if (match s.dblp with | none => true | some v => v.isEmpty) && pub.is_dblp
      then pub.dblp_key else s.dblp,
    eid := if s.eid.isEmpty && truthy pub.eid then pub.eid.getD "" else s.eid }

/-- The strategy loop of create_publication over the search_strategies list
that was built before the loop: a falsy value is skipped; a found record
passing has_citations is returned at once; a found record failing it only
updates the local identifiers (harvest_ids) and the loop continues with
the next pre-built entry. -/
def try_strategies (env : AdapterEnv) :
    List (String × (AdapterEnv → String → Option PubRecord)) → SeedIds → Option PubRecord
  | [], _ => none
  | (value, search_func) :: rest, s =>
    if value.isEmpty then try_strategies env rest s
    else
      match search_func env value with
      | some pub =>
        if has_citations pub then some pub
        else try_strategies env rest (harvest_ids pub s)
      | none => try_strategies env rest s

/-- create_publication from run.py over the bound-call strategy functions.
The search_strategies list is built once, before the loop, from the
incoming doi, eid, title and the local dblp variable that is still None at
that point; the loop then iterates over these frozen values.  Absent
identifiers are the empty string.  The as-shipped variant including the
failing argument binding of every adapter call is create_publication_run
below. -/
def create_publication (env : AdapterEnv) (doi eid title : String) : Option PubRecord :=
  try_strategies env
    [(title, find_publication_by_title), (doi, find_publication_by_doi),
     (eid, find_publication_by_eid), ("", find_publication_by_dblp)]
    { doi := doi, eid := eid, title := title, dblp := none }

/-- Python call-argument binding, reduced to what decides success for the
adapter calls of run.py: every parameter without a default value must be
bound by a positional or keyword argument, otherwise the call raises
TypeError in the caller's frame, before the callee's body (and any try
block inside it) can run. -/
def bind_call (required : List String) (bound : List String) : Except PyErr Unit :=
  if required.all (fun p => bound.contains p) then .ok () else .error .typeError

/-- Default-free parameters of DBLPPublication.search_by_title(title,
data_folder, max_results with default 10). -/
def dblp_search_required : List String := ["title", "data_folder"]

/-- Arguments bound by the call DBLPPublication.search_by_title(title,
max_results keyword) in run.py: the one positional binds title. -/
def dblp_search_call_bound : List String := ["title", "max_results"]

/-- Default-free parameters of ScopusPublication.search_by_title(title,
data_folder). -/
def scopus_search_required : List String := ["title", "data_folder"]

/-- Arguments bound by the call ScopusPublication.search_by_title(title)
in run.py: only title. -/
def scopus_search_call_bound : List String := ["title"]

/-- Default-free parameters of CrossRefPublication(data_folder, doi,
download with default True). -/
def crossref_init_required : List String := ["data_folder", "doi"]

/-- Arguments bound by the call CrossRefPublication(doi) in run.py: the one
positional binds data_folder, leaving doi unbound. -/
def crossref_init_call_bound : List String := ["data_folder"]

/-- Default-free parameters of ScopusPublication(data_folder, eid). -/
def scopus_init_required : List String := ["data_folder", "eid"]

/-- Arguments bound by the call ScopusPublication(eid) in run.py: the one
positional binds data_folder, leaving eid unbound. -/
def scopus_init_call_bound : List String := ["data_folder"]

/-- Default-free parameters of DBLPPublication(data_folder, dblp_key,
download with default True). -/
def dblp_init_required : List String := ["data_folder", "dblp_key"]

/-- Arguments bound by the call DBLPPublication(dblp_key keyword) in
run.py: only dblp_key, leaving data_folder unbound. -/
def dblp_init_call_bound : List String := ["dblp_key"]

/-- find_publication_by_title as shipped: each search call first performs
its argument binding; this frame has no try, so a binding failure is the
result of the whole function.  The body behind a successful binding is the
same search logic as find_publication_by_title. -/
def find_publication_by_title_run (env : AdapterEnv) (title : String) :
    Except PyErr (Option PubRecord) :=
  if title.isEmpty then .ok none
  else
    (bind_call dblp_search_required dblp_search_call_bound).bind fun _ =>
    match dblp_search_by_title env title 1 with
    | pub_dblp :: _ => .ok (some pub_dblp)
    | [] =>
      (bind_call scopus_search_required scopus_search_call_bound).bind fun _ =>
      match scopus_search_by_title env title with
      | some pub_scopus => .ok (if has_citations pub_scopus then some pub_scopus else none)
      | none => .ok none

/-- find_publication_by_doi as shipped: the constructor call performs its
argument binding inside the try, so a binding failure is caught and the
function answers None. -/
def find_publication_by_doi_run (env : AdapterEnv) (doi : String) :
    Except PyErr (Option PubRecord) :=
  if doi.isEmpty then .ok none
  else
    match (bind_call crossref_init_required crossref_init_call_bound).bind
        (fun _ => env.crossref_new doi) with
    | .ok pub => .ok (some pub)
    | .error _ => .ok none

/-- find_publication_by_eid as shipped: same shape over the
ScopusPublication constructor binding. -/
def find_publication_by_eid_run (env : AdapterEnv) (eid : String) :
    Except PyErr (Option PubRecord) :=
  if eid.isEmpty then .ok none
  else
    match (bind_call scopus_init_required scopus_init_call_bound).bind
        (fun _ => env.scopus_new eid) with
    | .ok pub => .ok (some pub)
    | .error _ => .ok none

/-- find_publication_by_dblp as shipped: same shape over the
DBLPPublication constructor binding. -/
def find_publication_by_dblp_run (env : AdapterEnv) (dblp_key : String) :
    Except PyErr (Option PubRecord) :=
  if dblp_key.isEmpty then .ok none
  else
    match (bind_call dblp_init_required dblp_init_call_bound).bind
        (fun _ => env.dblp_new dblp_key) with
    | .ok pub => .ok (some pub)
    | .error _ => .ok none

/-- The strategy loop over the as-shipped strategy functions: the loop body
has no try, so an exception escaping a strategy function aborts the whole
loop; otherwise the behaviour is that of try_strategies. -/
def try_strategies_run (env : AdapterEnv) :
    List (String × (AdapterEnv → String → Except PyErr (Option PubRecord))) → SeedIds →
    Except PyErr (Option PubRecord)
  | [], _ => .ok none
  | (value, search_func) :: rest, s =>
    if value.isEmpty then try_strategies_run env rest s
    else
      (search_func env value).bind fun found =>
      match found with
      | some pub =>
        if has_citations pub then .ok (some pub)
        else try_strategies_run env rest (harvest_ids pub s)
      | none => try_strategies_run env rest s

/-- create_publication as shipped: the frozen strategy list of
create_publication over the as-shipped strategy functions, whose adapter
calls include their argument binding. -/
def create_publication_run (env : AdapterEnv) (doi eid title : String) :
    Except PyErr (Option PubRecord) :=
  try_strategies_run env
    [(title, find_publication_by_title_run), (doi, find_publication_by_doi_run),
     (eid, find_publication_by_eid_run), ("", find_publication_by_dblp_run)]
    { doi := doi, eid := eid, title := title, dblp := none }

/-- os.path.join where the first component may be None: joining from None
raises TypeError, otherwise the components are joined with a slash. -/
def os_path_join (base : Option String) (child : String) : Except PyErr String :=
  match base with
  | none => .error .typeError
  | some b => .ok (b ++ "/" ++ child)

/-- eid.rjust(10, zero-padding) from Publication.__init__. -/
def rjust10 (s : String) : String :=
  if s.length < 10 then String.mk (List.replicate (10 - s.length) '0') ++ s else s

/-- The field state Publication.__init__ leaves behind that
ScopusPublication.__init__ then reads: the identifiers and _pub_directory,
which Publication.__init__ sets to None (create_pub_directory is only
called on demand and ScopusPublication.__init__ never calls it). -/
structure PublicationBase where
  data_folder : String
  doi : Option String
  eid : Option String
  pub_directory : Option String
deriving DecidableEq, Repr

/-- Publication.__init__: raises ValueError when both doi and eid are falsy,
right-pads the eid, stores the data folder and leaves _pub_directory None. -/
def publication_init (data_folder : String) (doi eid : Option String) :
    Except PyErr PublicationBase :=
  if !truthy doi && !truthy eid then .error .valueError
  else .ok { data_folder := data_folder,
             doi := doi,
             eid := if truthy eid then eid.map rjust10 else none,
             pub_directory := none }

/-- ScopusPublication.__init__ as far as it can run: after the base
initializer the constructor computes
citations_folder = os.path.join(self._pub_directory, citations-dir) and
reference_file = os.path.join(self._pub_directory, references-file);
_pub_directory is still None there, so the first join raises TypeError
before any cache-existence check, download or parse is reached.  The
unreachable remainder of the constructor is therefore not modelled. -/
def scopus_publication_init (data_folder eid : String) :
    Except PyErr (PublicationBase × String × String) :=
  (publication_init data_folder none (some eid)).bind fun base =>
  (os_path_join base.pub_directory "citations").bind fun citations_folder =>
  (os_path_join base.pub_directory "references.xml").map fun reference_file =>
  (base, citations_folder, reference_file)

/-- Membership in the strong co-citing list: exactly the keys whose tally
reaches the ceiling threshold. -/
theorem mem_get_strong_co_citing (publication : Publication) (shared : ℚ) (x : String) :
    x ∈ get_strong_co_citing publication shared ↔
      ∃ c : ℕ, (x, c) ∈ publication.co_citing_counts ∧
        min_count_for publication.reference_count shared ≤ (c : ℤ) := by
  unfold get_strong_co_citing
  constructor
  · intro hx
    obtain ⟨⟨k, c⟩, hkc, rfl⟩ := List.mem_map.mp hx
    obtain ⟨hmem, hcond⟩ := List.mem_filter.mp hkc
    exact ⟨c, hmem, of_decide_eq_true hcond⟩
  · rintro ⟨c, hmem, hcond⟩
    exact List.mem_map.mpr ⟨(x, c), List.mem_filter.mpr ⟨hmem, decide_eq_true hcond⟩, rfl⟩

/-- Membership in the strong co-cited list. -/
theorem mem_get_strong_co_cited (publication : Publication) (shared : ℚ) (x : String) :
    x ∈ get_strong_co_cited publication shared ↔
      ∃ c : ℕ, (x, c) ∈ publication.co_cited_counts ∧
        min_count_for publication.citation_count shared ≤ (c : ℤ) := by
  unfold get_strong_co_cited
  constructor
  · intro hx
    obtain ⟨⟨k, c⟩, hkc, rfl⟩ := List.mem_map.mp hx
    obtain ⟨hmem, hcond⟩ := List.mem_filter.mp hkc
    exact ⟨c, hmem, of_decide_eq_true hcond⟩
  · rintro ⟨c, hmem, hcond⟩
    exact List.mem_map.mpr ⟨(x, c), List.mem_filter.mpr ⟨hmem, decide_eq_true hcond⟩, rfl⟩

/-- The ceiling threshold is monotone in the shared fraction. -/
theorem min_count_for_mono (count : Nat) (s1 s2 : ℚ) (h : s1 ≤ s2) :
    min_count_for count s1 ≤ min_count_for count s2 := by
  unfold min_count_for
  exact Int.ceil_mono (mul_le_mul_of_nonneg_left h (Nat.cast_nonneg count))

/-- Any record the strategy loop returns was accepted by has_citations. -/
theorem try_strategies_some_valid (env : AdapterEnv) :
    ∀ (strats : List (String × (AdapterEnv → String → Option PubRecord)))
      (s : SeedIds) (pub : PubRecord),
      try_strategies env strats s = some pub → has_citations pub = true := by
  intro strats
  induction strats with
  | nil => intro s pub h; simp [try_strategies] at h
  | cons head rest ih =>
    intro s pub h
    obtain ⟨value, search_func⟩ := head
    simp only [try_strategies] at h
    by_cases hv : value.isEmpty
    · rw [if_pos hv] at h
      exact ih _ _ h
    · rw [if_neg hv] at h
      cases hf : search_func env value with
      | none => rw [hf] at h; exact ih _ _ h
      | some p =>
        rw [hf] at h
        dsimp only at h
        by_cases hc : has_citations p
        · rw [if_pos hc] at h
          cases h
          exact hc
        · rw [if_neg hc] at h
          exact ih _ _ h

/-- The keep test of filter_citations holds exactly for citations carrying a
year inside the requested bounds. -/
theorem keep_citation_iff (min_year max_year : Option Int) (c : CitationEdge) :
    keep_citation min_year max_year c = true ↔
      ∃ y : Int, c.year = some y ∧
        (∀ m, min_year = some m → m ≤ y) ∧
        (∀ mx, max_year = some mx → y ≤ mx) := by
  unfold keep_citation
  cases hy : c.year with
  | none => simp [hy]
  | some y =>
    simp only [hy, Bool.and_eq_true]
    constructor
    · rintro ⟨hmin, hmax⟩
      refine ⟨y, rfl, ?_, ?_⟩
      · intro m hm
        rw [hm] at hmin
        exact of_decide_eq_true hmin
      · intro mx hmx
        rw [hmx] at hmax
        exact of_decide_eq_true hmax
    · rintro ⟨y', hy', hmin, hmax⟩
      obtain rfl : y = y' := by injection hy'
      constructor
      · cases hm : min_year with
        | none => rfl
        | some m => exact decide_eq_true (hmin m hm)
      · cases hmx : max_year with
        | none => rfl
        | some mx => exact decide_eq_true (hmax mx hmx)

/-- A record whose metadata mapping is empty while its lazy count reads
succeed with 5 references and 0 citations (a CrossRef record whose
metadata fetch failed but whose OpenCitations reference call succeeded). -/
def pub_no_metadata : PubRecord :=
  { doi := some "10.2/x", eid := none, title := some "T", dblp_key := none,
    is_dblp := false, metadata := [], counts := some (5, 0) }

/-- A valid CrossRef-style record used to exercise the DOI strategy. -/
def pub_c1 : PubRecord :=
  { doi := some "10.9/c1", eid := none, title := some "C1", dblp_key := none,
    is_dblp := false, metadata := [("title", "C1")], counts := some (2, 0) }

/-- Adapter behaviour for the C1 witness: only the DOI resolves. -/
def env_c1 : AdapterEnv :=
  { crossref_new := fun d => if d = "10.9/c1" then .ok pub_c1 else .error .requestError,
    scopus_new := fun _ => .error .requestError,
    dblp_new := fun _ => .error .requestError,
    dblp_search_raw := fun _ _ => .ok [],
    scopus_search_raw := fun _ => .ok none }

/-- The record the title strategy finds for the C2 scenario (3 references). -/
def pub_c2_title : PubRecord :=
  { doi := some "10.2/t", eid := none, title := some "T2", dblp_key := some "conf/a/B2",
    is_dblp := true, metadata := [("title", "T2")], counts := some (3, 0) }

/-- The different record the DOI strategy would find for the C2 scenario. -/
def pub_c2_doi : PubRecord :=
  { doi := some "10.2/d", eid := none, title := some "T2", dblp_key := none,
    is_dblp := false, metadata := [("title", "T2")], counts := some (0, 4) }

/-- Adapter behaviour for the C2 scenario: the title resolves via the DBLP
search and the DOI resolves via CrossRef, to two distinct valid records. -/
def env_c2 : AdapterEnv :=
  { crossref_new := fun d => if d = "10.2/d" then .ok pub_c2_doi else .error .requestError,
    scopus_new := fun _ => .error .requestError,
    dblp_new := fun _ => .error .requestError,
    dblp_search_raw := fun t _ => if t = "T2" then .ok [pub_c2_title] else .ok [],
    scopus_search_raw := fun _ => .ok none }

/-- A valid Scopus record reachable through the EID strategy. -/
def pub_c7 : PubRecord :=
  { doi := none, eid := some "2-s2.0-777", title := some "T7", dblp_key := none,
    is_dblp := false, metadata := [("title", "T7")], counts := some (6, 1) }

/-- Adapter behaviour for the C7 witness: every title and DOI adapter call
raises; only the Scopus EID constructor succeeds. -/
def env_c7 : AdapterEnv :=
  { crossref_new := fun _ => .error .requestError,
    scopus_new := fun e => if e = "E7" then .ok pub_c7 else .error .requestError,
    dblp_new := fun _ => .error .otherError,
    dblp_search_raw := fun _ _ => .error .requestError,
    scopus_search_raw := fun _ => .error .otherError }

/-- A DBLP record found by title that fails has_citations (DBLP exposes no
citation data) but carries a DOI usable by a later strategy. -/
def pub_c8_found : PubRecord :=
  { doi := some "10.5/harv", eid := none, title := some "T8", dblp_key := some "conf/x/Y8",
    is_dblp := true, metadata := [("title", "T8")], counts := some (0, 0) }

/-- The valid record the CrossRef adapter returns for the harvested DOI. -/
def pub_c8_valid : PubRecord :=
  { doi := some "10.5/harv", eid := none, title := some "T8", dblp_key := none,
    is_dblp := false, metadata := [("title", "T8")], counts := some (7, 2) }

/-- Adapter behaviour for the C8 scenario: the title search finds the
invalid DBLP record and CrossRef would resolve its DOI to a valid one. -/
def env_c8 : AdapterEnv :=
  { crossref_new := fun d => if d = "10.5/harv" then .ok pub_c8_valid else .error .requestError,
    scopus_new := fun _ => .error .requestError,
    dblp_new := fun _ => .error .requestError,
    dblp_search_raw := fun t _ => if t = "T8" then .ok [pub_c8_found] else .ok [],
    scopus_search_raw := fun _ => .ok none }

/-- A direct reference edge fixture. -/
def edge_r1 : CitationEdge := { eid := "R1", title := none, year := none }

/-- A direct citation edge fixture. -/
def edge_cit1 : CitationEdge := { eid := "C1", title := some "ct", year := some 2023 }

/-- Record with one direct reference and one direct citation for the C4
witness. -/
def pub_c4 : Publication :=
  { eid := "e4", references_ := [edge_r1], citations_ := [edge_cit1],
    reference_count := 1, citation_count := 1,
    co_citing_counts := [("cc1", 1)], co_cited_counts := [] }

/-- Record with zero reference and citation counts but non-empty co-tally
dicts, for the degenerate-threshold claim. -/
def pub_c6 : Publication :=
  { eid := "e6", references_ := [], citations_ := [],
    reference_count := 0, citation_count := 0,
    co_citing_counts := [("x", 0), ("y", 2)], co_cited_counts := [("z", 1)] }

/-- C1 counterexample: has_citations accepts a record whose metadata mapping
is empty, because run.py only probes the two count reads and never the
metadata, so the claimed iff with the spec predicate fails on
pub_no_metadata (5 references, empty metadata). -/
theorem has_citations_not_spec_usable :
    ¬ (has_citations pub_no_metadata = true ↔ spec_usable pub_no_metadata) := by
  intro h
  exact (h.mp rfl).1 rfl

/-- C1 (amended): has_citations accepts a record exactly when both lazy
count reads succeed and the citation count or the reference count is
positive, with no condition on the metadata; and every record
create_publication returns was accepted by has_citations, so a failing
record is unusable for every resolution strategy. -/
theorem has_citations_characterization :
    (∀ pub : PubRecord, has_citations pub = true ↔
      ∃ r c : ℕ, pub.counts = some (r, c) ∧ (0 < c ∨ 0 < r)) ∧
    (∀ (env : AdapterEnv) (doi eid title : String) (pub : PubRecord),
      create_publication env doi eid title = some pub → has_citations pub = true) := by
  constructor
  · intro pub
    cases hc : pub.counts with
    | none => simp [has_citations, hc]
    | some rc =>
      obtain ⟨r, c⟩ := rc
      simp only [has_citations, hc, Bool.or_eq_true, decide_eq_true_eq, Option.some.injEq,
        Prod.mk.injEq]
      constructor
      · intro h
        exact ⟨r, c, ⟨rfl, rfl⟩, h⟩
      · rintro ⟨r', c', ⟨hr, hcq⟩, hor⟩
        subst hr
        subst hcq
        exact hor
  · intro env doi eid title pub h
    exact try_strategies_some_valid env _ _ pub h

/-- C1 witness: the amended theorem applied to a concrete resolution run
that returns pub_c1. -/
theorem has_citations_characterization_witness : has_citations pub_c1 = true :=
  has_citations_characterization.2 env_c1 "10.9/c1" "" "" pub_c1 (by decide)

/-- C2: the title-priority scenario as shipped.  With the two-source
fixture in which the DBLP title search would find the valid pub_c2_title
and CrossRef would resolve the DOI to the distinct valid pub_c2_doi, the
engine raises TypeError instead of returning the title-resolved record:
the title search call fails its argument binding in a frame with no try.
Moreover the shipped DOI strategy can never return a record for any DOI,
because its constructor call leaves the doi parameter unbound and the
caught TypeError yields None, so no environment can realise the claimed
scenario. -/
theorem create_publication_run_title_doi_seed :
    create_publication_run env_c2 "10.2/d" "" "T2" = .error .typeError ∧
    (∀ d : String, find_publication_by_doi_run env_c2 d = .ok none) := by
  constructor
  · rfl
  · intro d
    have hb : bind_call crossref_init_required crossref_init_call_bound =
        Except.error PyErr.typeError := rfl
    by_cases hd : d.isEmpty
    · simp [find_publication_by_doi_run, hd]
    · simp [find_publication_by_doi_run, hd, hb, Except.bind]

/-- C3: for every record and shared fraction in (0,1], the threshold is
min_count = ceil(reference_count * shared) and get_strong_co_citing
returns exactly the co_citing_counts keys whose tally reaches it; in
particular reference_count 25 with shared 1/10 gives min_count 3 (the
ceiling of 5/2), so only the tally-3 key of pub_c3 survives. -/
theorem get_strong_co_citing_threshold (publication : Publication) (shared : ℚ)
    (h1 : 0 < shared) (h2 : shared ≤ 1) :
    (∀ x : String, x ∈ get_strong_co_citing publication shared ↔
      ∃ c : ℕ, (x, c) ∈ publication.co_citing_counts ∧
        min_count_for publication.reference_count shared ≤ (c : ℤ)) ∧
    min_count_for 25 (1/10) = 3 ∧ get_strong_co_citing pub_c3 (1/10) = ["a"] :=
  ⟨fun x => mem_get_strong_co_citing publication shared x,
    min_count_for_25_tenth, get_strong_co_citing_pub_c3⟩

/-- C3 witness: the threshold characterisation at pub_c3 and shared 1/10. -/
theorem get_strong_co_citing_threshold_witness :
    ("a" ∈ get_strong_co_citing pub_c3 (1/10) ↔
      ∃ c : ℕ, ("a", c) ∈ pub_c3.co_citing_counts ∧
        min_count_for pub_c3.reference_count (1/10) ≤ (c : ℤ)) ∧
    min_count_for 25 (1/10) = 3 := by
  have h := get_strong_co_citing_threshold pub_c3 (1/10) (by norm_num) (by norm_num)
  exact ⟨h.1 "a", h.2.1⟩

/-- C4: for every record and shared fraction in (0,1], the strong-related
set contains every direct reference eid and every direct citation eid. -/
theorem strong_relationship_superset (publication : Publication) (shared : ℚ)
    (h0 : 0 < shared) (h1 : shared ≤ 1) :
    (publication.references_.map CitationEdge.eid).toFinset ∪
      (publication.citations_.map CitationEdge.eid).toFinset ⊆
      get_strong_citation_relationship publication shared := by
  intro a ha
  unfold get_strong_citation_relationship
  simp only [Finset.mem_union] at ha ⊢
  tauto

/-- C4 witness: the superset property at pub_c4 with shared 1/2. -/
theorem strong_relationship_superset_witness :
    (pub_c4.references_.map CitationEdge.eid).toFinset ∪
      (pub_c4.citations_.map CitationEdge.eid).toFinset ⊆
      get_strong_citation_relationship pub_c4 (1/2) :=
  strong_relationship_superset pub_c4 (1/2) (by norm_num) (by norm_num)

/-- C5: raising the shared fraction never adds members to the strong
co-citing list: for shared fractions s1 le s2 in (0,1], every member at s2
is a member at s1. -/
theorem get_strong_co_citing_monotone (publication : Publication) (s1 s2 : ℚ) (x : String)
    (h0 : 0 < s1) (h12 : s1 ≤ s2) (h1 : s2 ≤ 1)
    (hx : x ∈ get_strong_co_citing publication s2) :
    x ∈ get_strong_co_citing publication s1 := by
  rw [mem_get_strong_co_citing] at hx ⊢
  obtain ⟨c, hmem, hc⟩ := hx
  exact ⟨c, hmem, le_trans (min_count_for_mono publication.reference_count s1 s2 h12) hc⟩

/-- C5 witness: the key accepted at shared 1/10 for pub_c3 is still
accepted at the smaller fraction 1/25. -/
theorem get_strong_co_citing_monotone_witness :
    "a" ∈ get_strong_co_citing pub_c3 (1/25) :=
  get_strong_co_citing_monotone pub_c3 (1/25) (1/10) "a"
    (by norm_num) (by norm_num) (by norm_num)
    (by rw [get_strong_co_citing_pub_c3]; exact List.mem_singleton.mpr rfl)

/-- C6: when reference_count (respectively citation_count) is zero the
threshold ceil(0 * shared) evaluates to 0 and get_strong_co_citing
(respectively get_strong_co_cited) returns every key of the corresponding
tally dict. -/
theorem strong_co_threshold_degenerate (publication : Publication) (shared : ℚ)
    (h0 : 0 < shared) (h1 : shared ≤ 1) :
    (publication.reference_count = 0 →
      min_count_for publication.reference_count shared = 0 ∧
      get_strong_co_citing publication shared = publication.co_citing_counts.map Prod.fst) ∧
    (publication.citation_count = 0 →
      min_count_for publication.citation_count shared = 0 ∧
      get_strong_co_cited publication shared = publication.co_cited_counts.map Prod.fst) := by
  constructor
  · intro href
    have hmin : min_count_for publication.reference_count shared = 0 := by
      rw [href]
      unfold min_count_for
      simp
    refine ⟨hmin, ?_⟩
    have hfil : publication.co_citing_counts.filter
        (fun kv => decide (min_count_for publication.reference_count shared ≤ (kv.2 : ℤ)))
        = publication.co_citing_counts := by
      apply List.filter_eq_self.mpr
      intro a _
      rw [decide_eq_true_eq, hmin]
      exact Int.natCast_nonneg a.2
    calc get_strong_co_citing publication shared
        = (publication.co_citing_counts.filter
            (fun kv => decide (min_count_for publication.reference_count shared ≤ (kv.2 : ℤ)))).map
            Prod.fst := rfl
      _ = publication.co_citing_counts.map Prod.fst := by rw [hfil]
  · intro hcit
    have hmin : min_count_for publication.citation_count shared = 0 := by
      rw [hcit]
      unfold min_count_for
      simp
    refine ⟨hmin, ?_⟩
    have hfil : publication.co_cited_counts.filter
        (fun kv => decide (min_count_for publication.citation_count shared ≤ (kv.2 : ℤ)))
        = publication.co_cited_counts := by
      apply List.filter_eq_self.mpr
      intro a _
      rw [decide_eq_true_eq, hmin]
      exact Int.natCast_nonneg a.2
    calc get_strong_co_cited publication shared
        = (publication.co_cited_counts.filter
            (fun kv => decide (min_count_for publication.citation_count shared ≤ (kv.2 : ℤ)))).map
            Prod.fst := rfl
      _ = publication.co_cited_counts.map Prod.fst := by rw [hfil]

/-- C6 witness: the zero-count record keeps every tally key, including the
tally-0 key, at shared 1/2. -/
theorem strong_co_threshold_degenerate_witness :
    get_strong_co_citing pub_c6 (1/2) = ["x", "y"] ∧
    get_strong_co_cited pub_c6 (1/2) = ["z"] := by
  have h := strong_co_threshold_degenerate pub_c6 (1/2) (by norm_num) (by norm_num)
  exact ⟨(h.1 rfl).2.trans (by decide), (h.2 rfl).2.trans (by decide)⟩

/-- C7: for every adapter environment and every titled seed, the title
strategy's DBLP search call fails its argument binding (the required
data_folder stays unbound), the TypeError is raised in the frame of
find_publication_by_title which has no try, and it propagates out of
create_publication: the remaining strategies are never attempted and no
None absence signal is produced. -/
theorem create_publication_run_raises_for_titled_seeds (env : AdapterEnv)
    (doi eid title : String) (h : title.isEmpty = false) :
    create_publication_run env doi eid title = .error .typeError := by
  have hb : bind_call dblp_search_required dblp_search_call_bound =
      Except.error PyErr.typeError := rfl
  simp [create_publication_run, try_strategies_run, find_publication_by_title_run, h, hb,
    Except.bind]

/-- C7 witness: the engine crashes on the concrete titled seed even though
the environment holds a valid EID record that later strategies could have
returned. -/
theorem create_publication_run_raises_witness :
    create_publication_run env_c7 "10.7/d" "E7" "T7" = .error .typeError :=
  create_publication_run_raises_for_titled_seeds env_c7 "10.7/d" "E7" "T7" (by decide)

/-- C8: the concrete run in which the title strategy finds an invalid
record carrying DOI 10.5/harv, for which the CrossRef adapter would
return a valid record; create_publication still answers None because the
strategy list was frozen before the loop with the seed's empty DOI, so
the harvested DOI is never searched. -/
theorem create_publication_drops_harvested_doi :
    create_publication env_c8 "" "" "T8" = none ∧
    find_publication_by_title env_c8 "T8" = some pub_c8_found ∧
    has_citations pub_c8_found = false ∧
    pub_c8_found.doi = some "10.5/harv" ∧
    find_publication_by_doi env_c8 "10.5/harv" = some pub_c8_valid ∧
    has_citations pub_c8_valid = true := by
  refine ⟨?_, ?_, ?_, ?_, ?_, ?_⟩ <;> decide

/-- C9: ScopusPublication.__init__ raises on every input before reaching
its cache logic: with a falsy eid the base initializer raises ValueError,
and otherwise the os.path.join over the still-None _pub_directory raises
TypeError, so the reference-file cache check, download and parse are
unreachable. -/
theorem scopus_publication_init_always_raises (data_folder eid : String) :
    scopus_publication_init data_folder eid =
      .error (if eid.isEmpty then PyErr.valueError else PyErr.typeError) := by
  by_cases h : eid.isEmpty
  · simp [scopus_publication_init, publication_init, os_path_join, truthy, h, Except.bind]
  · simp [scopus_publication_init, publication_init, os_path_join, truthy, h, Except.bind]

/-- C10: filter_citations keeps exactly the previous citations whose year
is present and inside the inclusive bounds; citations without a year are
dropped even when both bounds are None, in which case the result is
precisely the year-carrying sublist. -/
theorem filter_citations_keeps_bounded_years (publication : Publication)
    (min_year max_year : Option Int) :
    (∀ c : CitationEdge,
      c ∈ (filter_citations publication min_year max_year).citations_ ↔
        c ∈ publication.citations_ ∧ ∃ y : Int, c.year = some y ∧
          (∀ m, min_year = some m → m ≤ y) ∧ (∀ mx, max_year = some mx → y ≤ mx)) ∧
    (filter_citations publication none none).citations_ =
      publication.citations_.filter (fun c => c.year.isSome) := by
  constructor
  · intro c
    unfold filter_citations
    rw [List.mem_filter, keep_citation_iff]
  · unfold filter_citations
    apply List.filter_congr
    intro c _
    cases hy : c.year with
    | none => simp [keep_citation, hy]
    | some y => simp [keep_citation, hy]
